import Mathlib

/-!
Shallow embedding of the GPA-COMMAND metrics engine and its
normalization contract, translated from `src/core/metrics.py` and
`src/core/normalize.py`.

Modelling conventions:
- pandas numeric cells are `Rat`; a nullable cell (NaN after
  `pd.to_numeric(..., errors="coerce")`) is `Option Rat`, so the coercion
  itself is the identity on the already-parsed value.
- calendar dates are day numbers (`Int`, days since 1970-01-01); a cell
  that `pd.to_datetime(..., errors="coerce")` turns into NaT is `none`.
- string cells that may be missing are `Option String`; `astype("string").fillna(x)`
  is `Option.getD x`.
- `str(uuid.uuid4())` draws from an abstract injective supply
  `fresh : Nat → String` passed as a parameter; the source consumes the
  supply positionally over the rows whose id is blank.
- a DataFrame is a `List` of row structures; `groupby` + left `merge`
  on a unique key is per-subject filtering, which produces the same
  joined row for every subject row.
-/

namespace GpaCommand

/-- Settings record as produced by `load_settings` (`src/core/storage.py`):
a string-keyed dictionary whose keys may be absent, here a structure of
optional fields covering the keys of `DEFAULT_SETTINGS`
(`src/core/config.py`). `default_exam_date` is stored parsed
(`none` = key absent). -/
structure Settings where
  semester : Option String := none
  default_exam_date : Option Int := none
  logs_weight : Option Rat := none
  tests_weight : Option Rat := none
  momentum_days : Option Int := none
  focus_n : Option Int := none
  show_upcoming_exams : Option Bool := none
  show_recent_activity : Option Bool := none
deriving Repr, DecidableEq

/-- The parsed value of `DEFAULT_SETTINGS["default_exam_date"] = "2025-09-05"`
(`src/core/config.py`), as a day number since 1970-01-01. -/
def DEFAULT_default_exam_date : Int := 20336

/-- Subject row as consumed by `compute_metrics`: columns `id`, `credits`,
`confidence`, `exam_date` (the `exam_date` cell after the
`pd.to_datetime(..., errors="coerce")` of `metrics.py` line 43,
`none` = NaT). -/
structure SubjectRow where
  id : String
  credits : Rat
  confidence : Rat
  exam_date : Option Int
deriving Repr, DecidableEq

/-- Log row as consumed by `compute_metrics`: columns `subject_id`, `hours`,
`score` (nullable). -/
structure LogRow where
  subject_id : String
  hours : Rat
  score : Option Rat
deriving Repr, DecidableEq

/-- Test row as consumed by `compute_metrics`: columns `subject_id`,
`score` (nullable). -/
structure TestRow where
  subject_id : String
  score : Option Rat
deriving Repr, DecidableEq

/-- One row of the derived metrics table returned by `compute_metrics`. -/
structure MetricsRow where
  id : String
  priority : Rat
  hours : Rat
  logs_avg : Option Rat
  tests_avg : Option Rat
  avg_score : Rat
  days_left : Int
  priority_gap : Rat
deriving Repr, DecidableEq

/-- `days_between` (`metrics.py` lines 26-28): whole-day difference
`(d2 - d1).days` on day numbers. -/
def days_between (d1 d2 : Int) : Int := d2 - d1

/-- `calc_priority` (`metrics.py` lines 30-31). -/
def calc_priority (credits confidence : Rat) : Rat :=
  (10 - confidence) * credits

/-- `w_logs = float(settings.get("logs_weight", 0.70))`
(`metrics.py` line 35). -/
def wLogs (st : Settings) : Rat := st.logs_weight.getD (7 / 10)

/-- `w_tests = float(settings.get("tests_weight", max(0.0, 1.0 - w_logs)))`
(`metrics.py` line 36). -/
def wTests (st : Settings) : Rat := st.tests_weight.getD (max 0 (1 - wLogs st))

/-- `pd.to_datetime(settings.get("default_exam_date", DEFAULT_SETTINGS["default_exam_date"]))`
(`metrics.py` line 62). -/
def effectiveDefaultExam (st : Settings) : Int :=
  st.default_exam_date.getD DEFAULT_default_exam_date

/-- The pandas group mean: mean of the non-null scores, NaN (`none`) when
there are none — which is also what the left merge leaves for a subject
with no group at all. -/
def meanOpt (xs : List Rat) : Option Rat :=
  if xs.isEmpty then none else some (xs.sum / (xs.length : Rat))

/-- The rows of `logs` grouped under subject id `sid`
(`logs.groupby("subject_id")` restricted to one key, equivalently the
left-merge match for a subject row with that id). -/
def logsFor (sid : String) (logs : List LogRow) : List LogRow :=
  logs.filter (fun l => l.subject_id == sid)

/-- The rows of `tests` grouped under subject id `sid`. -/
def testsFor (sid : String) (tests : List TestRow) : List TestRow :=
  tests.filter (fun t => t.subject_id == sid)

/-- Non-null scores of a group of log rows (pandas `mean` skips NaN). -/
def logScores (ls : List LogRow) : List Rat := ls.filterMap (fun l => l.score)

/-- Non-null scores of a group of test rows. -/
def testScores (ts : List TestRow) : List Rat := ts.filterMap (fun t => t.score)

/-- `weighted_avg` (`metrics.py` lines 53-58): the blend precedence on the
two nullable per-subject means. -/
def weighted_avg (w_logs w_tests : Rat) (logs_avg tests_avg : Option Rat) : Rat :=
  match logs_avg, tests_avg with
  | some l, some t => l * w_logs + t * w_tests
  | some l, none => l
  | none, some t => t
  | none, none => 0

/-- One output row of `compute_metrics` for subject row `s`: the
aggregates of `metrics.py` lines 38-40 joined by the left merge of
lines 46-47 (the groupby keys are unique, so each subject row matches at
most one aggregate row; no match = NaN, then `hours` is `fillna(0.0)`,
line 49), blended and scored per lines 53-65. -/
def metricsRowFor (w_logs w_tests : Rat) (default_exam today : Int)
    (logs : List LogRow) (tests : List TestRow) (s : SubjectRow) : MetricsRow :=
  let myLogs := logsFor s.id logs
  let myTests := testsFor s.id tests
  let priority := calc_priority s.credits s.confidence
  let logs_avg := meanOpt (logScores myLogs)
  let tests_avg := meanOpt (testScores myTests)
  let avg := weighted_avg w_logs w_tests logs_avg tests_avg
  { id := s.id
    priority := priority
    hours := (myLogs.map (fun l => l.hours)).sum
    logs_avg := logs_avg
    tests_avg := tests_avg
    avg_score := avg
    days_left := max 0 (days_between today (s.exam_date.getD default_exam))
    priority_gap := priority * (1 - avg / 100) }

/-- `compute_metrics` (`metrics.py` lines 33-66). The ambient inputs the
source reads itself — the settings dictionary via `load_settings()` and
the clock via `date.today()` — are made explicit parameters `st` and
`today`. -/
def compute_metrics (st : Settings) (today : Int) (subjects : List SubjectRow)
    (logs : List LogRow) (tests : List TestRow) : List MetricsRow :=
  subjects.map
    (metricsRowFor (wLogs st) (wTests st) (effectiveDefaultExam st) today logs tests)

/-- `weighted_readiness` (`metrics.py` lines 68-72). `if den` in Python is
false exactly on `den == 0` for a numeric sum. -/
def weighted_readiness (rows : List MetricsRow) : Rat :=
  if rows.isEmpty then 0
  else
    let num := (rows.map (fun r => r.priority * (r.avg_score / 100))).sum
    let den := (rows.map (fun r => r.priority)).sum
    if den = 0 then 0 else num / den

/-- Raw subject row entering `normalize_subjects_df` or
`sanitize_subjects_for_editor`, after `_ensure_columns`
(`src/core/normalize.py` lines 9-14): every cell is nullable. Numeric
cells are carried post-`pd.to_numeric(..., errors="coerce")` and date
cells post-`pd.to_datetime(..., errors="coerce")`, so an unparseable cell
is `none`. -/
structure RawSubjectRow where
  id : Option String := none
  name : Option String := none
  credits : Option Rat := none
  confidence : Option Rat := none
  exam_date : Option Int := none
  user_id : Option String := none
deriving Repr, DecidableEq

/-- Raw log row entering `normalize_logs_df`, after `_ensure_columns`. -/
structure RawLogRow where
  id : Option String := none
  date : Option Int := none
  subject_id : Option String := none
  hours : Option Rat := none
  task : Option String := none
  score : Option Rat := none
  notes : Option String := none
  user_id : Option String := none
deriving Repr, DecidableEq

/-- Raw test row entering `normalize_tests_df`, after `_ensure_columns`. -/
structure RawTestRow where
  id : Option String := none
  date : Option Int := none
  subject_id : Option String := none
  score : Option Rat := none
  difficulty : Option Rat := none
  notes : Option String := none
  user_id : Option String := none
deriving Repr, DecidableEq

/-- Output row of `normalize_subjects_df`. `exam_date` stays nullable: when
both the cell and the `default_exam` argument are unparseable the
`strftime` leaves NaN. -/
structure NormSubjectRow where
  id : String
  name : String
  credits : Int
  confidence : Int
  exam_date : Option Int
  user_id : String
deriving Repr, DecidableEq

/-- Output row of `normalize_logs_df`. `user_id` stays nullable because the
source only overwrites that column when a user id is supplied. -/
structure NormLogRow where
  id : String
  date : Option Int
  subject_id : String
  hours : Rat
  task : String
  score : Option Rat
  notes : String
  user_id : Option String
deriving Repr, DecidableEq

/-- Output row of `normalize_tests_df`. -/
structure NormTestRow where
  id : String
  date : Option Int
  subject_id : String
  score : Option Rat
  difficulty : Int
  notes : String
  user_id : Option String
deriving Repr, DecidableEq

/-- Output row of `sanitize_subjects_for_editor` (`src/core/metrics.py`
lines 8-24): string columns stay nullable (cast, not filled), the
numeric columns are repaired, `exam_date` falls back to the settings
default. -/
structure EditorSubjectRow where
  id : Option String
  name : Option String
  credits : Int
  confidence : Int
  exam_date : Int
  user_id : Option String
deriving Repr, DecidableEq

/-- `astype(int)` on a float column: truncation toward zero. -/
def ratTrunc (q : Rat) : Int := if q < 0 then ⌈q⌉ else ⌊q⌋

/-- numpy `.round()`: round half to even, used by the pandas `Series.round`
calls of `normalize.py` and `metrics.py`. -/
def roundHalfEven (q : Rat) : Int :=
  let f : Int := ⌊q⌋
  let r : Rat := q - (f : Rat)
  if r < 1 / 2 then f
  else if 1 / 2 < r then f + 1
  else if f % 2 = 0 then f else f + 1

/-- `.clip(lo, hi)` on an integer column. -/
def clipZ (lo hi x : Int) : Int := max lo (min hi x)

/-- `.clip(lo, hi)` on a float column (NaN cells are handled by the caller:
pandas `clip` leaves NaN in place). -/
def clipQ (lo hi x : Rat) : Rat := max lo (min hi x)

/-- Python `str.strip()`: drop leading and trailing whitespace. -/
def pyStrip (s : String) : String :=
  String.mk (((s.data.dropWhile Char.isWhitespace).reverse.dropWhile Char.isWhitespace).reverse)

/-- The blank-id repair shared by all three normalizers (`normalize.py`
lines 28-30, 59-61, 82-84): `astype("string").fillna("")`, then every id
whose `str.strip()` is empty is replaced by the next value of the uuid
supply; non-blank ids are kept verbatim. The counter `k` tracks how many
uuids have been consumed so far. -/
def assignIds (fresh : Nat → String) : Nat → List (Option String) → List String
  | _, [] => []
  | k, cell :: rest =>
    if pyStrip (cell.getD "") = "" then
      fresh k :: assignIds fresh (k + 1) rest
    else
      (cell.getD "") :: assignIds fresh k rest

/-- Per-row field repair of `normalize_subjects_df` (`normalize.py`
lines 32-52), given the already-assigned id for the row. -/
def normSubjectFields (default_exam : Option Int) (uid : Option String)
    (theId : String) (r : RawSubjectRow) : NormSubjectRow :=
  { id := theId
    name := r.name.getD ""
    credits := ratTrunc (r.credits.getD 1)
    confidence := clipZ 0 10 (roundHalfEven (r.confidence.getD 5))
    exam_date := match r.exam_date with
      | some d => some d
      | none => default_exam
    user_id := match uid with
      | some u => u
      | none => r.user_id.getD "" }

/-- `normalize_subjects_df` (`normalize.py` lines 21-52). `fresh` is the
uuid supply; `default_exam` is the `default_exam` argument already parsed
(`none` = unparseable). -/
def normalize_subjects_df (fresh : Nat → String) (df : List RawSubjectRow)
    (default_exam : Option Int) (uid : Option String) : List NormSubjectRow :=
  List.zipWith (normSubjectFields default_exam uid)
    (assignIds fresh 0 (df.map (fun r => r.id))) df

/-- Per-row field repair of `normalize_logs_df` (`normalize.py`
lines 63-75): hours coerced with 0 default, score nulled outside [0,100]
(strict comparisons, as in line 68), never clamped. -/
def normLogFields (uid : Option String) (theId : String) (r : RawLogRow) : NormLogRow :=
  { id := theId
    date := r.date
    subject_id := r.subject_id.getD ""
    hours := r.hours.getD 0
    task := r.task.getD ""
    score := match r.score with
      | some s => if s < 0 ∨ 100 < s then none else some s
      | none => none
    notes := r.notes.getD ""
    user_id := match uid with
      | some u => some u
      | none => r.user_id }

/-- `normalize_logs_df` (`normalize.py` lines 54-75). -/
def normalize_logs_df (fresh : Nat → String) (df : List RawLogRow)
    (uid : Option String) : List NormLogRow :=
  List.zipWith (normLogFields uid) (assignIds fresh 0 (df.map (fun r => r.id))) df

/-- Per-row field repair of `normalize_tests_df` (`normalize.py`
lines 86-99): score clamped into [0,100] (pandas `clip` keeps NaN as
NaN), difficulty defaulted to 3, rounded and clamped into [1,5]. -/
def normTestFields (uid : Option String) (theId : String) (r : RawTestRow) : NormTestRow :=
  { id := theId
    date := r.date
    subject_id := r.subject_id.getD ""
    score := r.score.map (clipQ 0 100)
    difficulty := clipZ 1 5 (roundHalfEven (r.difficulty.getD 3))
    notes := r.notes.getD ""
    user_id := match uid with
      | some u => some u
      | none => r.user_id }

/-- `normalize_tests_df` (`normalize.py` lines 77-100). -/
def normalize_tests_df (fresh : Nat → String) (df : List RawTestRow)
    (uid : Option String) : List NormTestRow :=
  List.zipWith (normTestFields uid) (assignIds fresh 0 (df.map (fun r => r.id))) df

/-- `sanitize_subjects_for_editor` (`src/core/metrics.py` lines 8-24),
modelled at cell level for frames that carry the `exam_date`, `credits`
and `confidence` columns (a frame missing one of them first gets it
created as a constant column — default exam date, 2, 5 respectively —
and those constants then flow through the same per-cell repair below).
When the settings hold no parseable default exam date the source falls
back to today; here `default_exam_date = none` means the key is absent,
which uses the parseable `DEFAULT_SETTINGS` date. -/
def sanitize_subjects_for_editor (st : Settings) (df : List RawSubjectRow) :
    List EditorSubjectRow :=
  df.map (fun r =>
    { id := r.id
      name := r.name
      credits := ratTrunc (r.credits.getD 1)
      confidence := clipZ 0 10 (roundHalfEven (r.confidence.getD 5))
      exam_date := r.exam_date.getD (st.default_exam_date.getD DEFAULT_default_exam_date)
      user_id := r.user_id })

/-- A row of a user-partitioned table as handled by the merge helpers of
`normalize.py` (lines 103-138): the `id` and `user_id` columns the code
inspects, plus the remaining columns abstracted as an opaque payload the
helpers never touch. -/
structure URow where
  id : String
  user_id : String
  payload : String
deriving Repr, DecidableEq

/-- `drop_duplicates(subset=["id"], keep="last")`: a row survives iff no
later row carries the same id; surviving rows keep their order. -/
def dropDuplicatesKeepLast : List URow → List URow
  | [] => []
  | r :: rest =>
    if rest.any (fun s => s.id == r.id) then dropDuplicatesKeepLast rest
    else r :: dropDuplicatesKeepLast rest

/-- `_merge_replace_current_user` (`normalize.py` lines 103-118). With a
typed row schema `_align_columns` is the identity. -/
def merge_replace_current_user (existing incoming : List URow)
    (uid : Option String) : List URow :=
  match uid with
  | none => incoming
  | some u =>
    let incoming2 := incoming.map (fun r => { r with user_id := u })
    let others := existing.filter (fun r => r.user_id != u)
    let cur := existing.filter (fun r => r.user_id == u)
    others ++ dropDuplicatesKeepLast (cur ++ incoming2)

/-- `_append_current_user` (`normalize.py` lines 120-138). The non-`none`
branch of the source is line-for-line the same computation as in
`_merge_replace_current_user`. -/
def append_current_user (existing incoming : List URow)
    (uid : Option String) : List URow :=
  match uid with
  | none => dropDuplicatesKeepLast (existing ++ incoming)
  | some u =>
    let incoming2 := incoming.map (fun r => { r with user_id := u })
    let others := existing.filter (fun r => r.user_id != u)
    let cur := existing.filter (fun r => r.user_id == u)
    others ++ dropDuplicatesKeepLast (cur ++ incoming2)

/-!
Concrete sample data, used by the witnesses below. `sampleSubject`,
`sampleLogs`, `sampleTests` are the worked scenario of the spec's §8
(credits 2, confidence 2, one log scored 80, one test scored 60). -/

/-- Default settings record: every key absent, so every `settings.get`
falls back to its in-code default. -/
def sampleSettings : Settings := {}

/-- Sample subject, spec §8 scenario `s2`. -/
def sampleSubject : SubjectRow :=
  { id := "s2", credits := 2, confidence := 2, exam_date := some 10 }

/-- Sample logs: one log for `s2` scored 80. -/
def sampleLogs : List LogRow := [{ subject_id := "s2", hours := 1, score := some 80 }]

/-- Sample tests: one test for `s2` scored 60. -/
def sampleTests : List TestRow := [{ subject_id := "s2", score := some 60 }]

/-- The metrics row `compute_metrics` derives for the sample scenario. -/
def sampleMetrics : MetricsRow :=
  metricsRowFor (wLogs sampleSettings) (wTests sampleSettings)
    (effectiveDefaultExam sampleSettings) 0 sampleLogs sampleTests sampleSubject

/-- Subject with no matching rows anywhere (spec §8 scenario `s1`). -/
def lonelySubject : SubjectRow :=
  { id := "s1", credits := 2, confidence := 8, exam_date := none }

/-- A log whose `subject_id` matches no subject. -/
def orphanLogs : List LogRow := [{ subject_id := "zz", hours := 5, score := some 50 }]

/-- The metrics row derived for `lonelySubject` against `orphanLogs`. -/
def lonelyMetrics : MetricsRow :=
  metricsRowFor (wLogs sampleSettings) (wTests sampleSettings)
    (effectiveDefaultExam sampleSettings) 0 orphanLogs [] lonelySubject

/-- One-row metrics table with in-range data: priority 4, avg score 50. -/
def sampleMetricsTable : List MetricsRow :=
  [{ id := "a", priority := 4, hours := 0, logs_avg := none, tests_avg := none,
     avg_score := 50, days_left := 0, priority_gap := 2 }]

/-- A metrics row carrying an out-of-range `avg_score`, as `weighted_readiness`
receives it when fed unnormalized data. -/
def rogueMetricsRow : MetricsRow :=
  { id := "r", priority := 1, hours := 0, logs_avg := none, tests_avg := none,
    avg_score := 200, days_left := 0, priority_gap := 0 }

/-- Raw subject row whose numeric `credits` cell is 0 (in-schema but below
the documented lower bound). -/
def badCreditsRow : RawSubjectRow := { credits := some 0 }

/-- Raw log row scored 150 (spec §8's asymmetry scenario). -/
def hotLog : RawLogRow := { subject_id := some "s2", score := some 150 }

/-- Raw test row scored 150 (spec §8's asymmetry scenario). -/
def hotTest : RawTestRow := { subject_id := some "s2", score := some 150 }

/-- Two settings records that agree on the three keys `compute_metrics`
reads but differ elsewhere. -/
def settingsA : Settings := { momentum_days := some 7 }

/-- See `settingsA`. -/
def settingsB : Settings := { momentum_days := some 99, semester := some "other" }

/-! ## Shared lemmas -/

/-- The blank-id repair is row-for-row: it never changes the row count. -/
theorem assignIds_length (fresh : Nat → String) :
    ∀ (k : Nat) (cells : List (Option String)),
      (assignIds fresh k cells).length = cells.length
  | _, [] => rfl
  | k, cell :: rest => by
    unfold assignIds
    split
    · simp [assignIds_length fresh (k + 1) rest]
    · simp [assignIds_length fresh k rest]

/-- Positional specification of the blank-id repair: every produced id is
non-blank (given a non-blank uuid supply), and a non-blank incoming id is
kept verbatim. -/
theorem assignIds_spec (fresh : Nat → String) (hfresh : ∀ n, pyStrip (fresh n) ≠ "") :
    ∀ (cells : List (Option String)) (k i : Nat) (theId : String),
      (assignIds fresh k cells)[i]? = some theId →
      pyStrip theId ≠ "" ∧
        ∀ s, cells[i]? = some (some s) → pyStrip s ≠ "" → theId = s
  | [], _, _, _ => by
    intro h
    simp [assignIds] at h
  | cell :: rest, k, i, theId => by
    intro h
    unfold assignIds at h
    by_cases hblank : pyStrip (cell.getD "") = ""
    · rw [if_pos hblank] at h
      cases i with
      | zero =>
        simp only [List.getElem?_cons_zero, Option.some.injEq] at h
        subst h
        refine ⟨hfresh k, ?_⟩
        intro s hs hsnb
        simp only [List.getElem?_cons_zero, Option.some.injEq] at hs
        rw [hs] at hblank
        simp only [Option.getD_some] at hblank
        exact absurd hblank hsnb
      | succ j =>
        simp only [List.getElem?_cons_succ] at h ⊢
        exact assignIds_spec fresh hfresh rest (k + 1) j theId h
    · rw [if_neg hblank] at h
      cases i with
      | zero =>
        simp only [List.getElem?_cons_zero, Option.some.injEq] at h
        refine ⟨by rw [← h]; exact hblank, ?_⟩
        intro s hs _
        simp only [List.getElem?_cons_zero, Option.some.injEq] at hs
        rw [hs] at h
        simpa using h.symm
      | succ j =>
        simp only [List.getElem?_cons_succ] at h ⊢
        exact assignIds_spec fresh hfresh rest k j theId h

/-- Inversion for indexing into a `zipWith`. -/
theorem zipWith_getElem?_inv {α β γ : Type} (f : α → β → γ) (as : List α) (bs : List β)
    (i : Nat) (c : γ) (h : (List.zipWith f as bs)[i]? = some c) :
    ∃ a b, as[i]? = some a ∧ bs[i]? = some b ∧ c = f a b := by
  rw [List.getElem?_zipWith] at h
  cases ha : as[i]? with
  | none => rw [ha] at h; simp at h
  | some a =>
    cases hb : bs[i]? with
    | none => rw [ha, hb] at h; simp at h
    | some b =>
      rw [ha, hb] at h
      exact ⟨a, b, rfl, rfl, (Option.some.inj h).symm⟩

/-- Each output row of `compute_metrics` is `metricsRowFor` of the
positionally matching subject row. -/
theorem compute_metrics_getElem (st : Settings) (today : Int)
    (subjects : List SubjectRow) (logs : List LogRow) (tests : List TestRow)
    (i : Nat) (s : SubjectRow) (m : MetricsRow)
    (hs : subjects[i]? = some s)
    (hm : (compute_metrics st today subjects logs tests)[i]? = some m) :
    m = metricsRowFor (wLogs st) (wTests st) (effectiveDefaultExam st) today logs tests s := by
  unfold compute_metrics at hm
  rw [List.getElem?_map, hs] at hm
  simp only [Option.map_some'] at hm
  exact (Option.some.inj hm).symm

/-! ## Claims -/

/-- C1: for every subject row produced by `compute_metrics`, `avg_score`
follows the exact blend precedence: both means present — weighted sum
with the configured weights; only the logs mean — the logs mean; only
the tests mean — the tests mean; neither — 0. -/
theorem compute_metrics_avg_score_blend (st : Settings) (today : Int)
    (subjects : List SubjectRow) (logs : List LogRow) (tests : List TestRow)
    (i : Nat) (s : SubjectRow) (m : MetricsRow)
    (hs : subjects[i]? = some s)
    (hm : (compute_metrics st today subjects logs tests)[i]? = some m) :
    (∀ l t, m.logs_avg = some l → m.tests_avg = some t →
      m.avg_score = l * wLogs st + t * wTests st)
    ∧ (∀ l, m.logs_avg = some l → m.tests_avg = none → m.avg_score = l)
    ∧ (∀ t, m.logs_avg = none → m.tests_avg = some t → m.avg_score = t)
    ∧ (m.logs_avg = none → m.tests_avg = none → m.avg_score = 0) := by
  have hmeq := compute_metrics_getElem st today subjects logs tests i s m hs hm
  have havg : m.avg_score = weighted_avg (wLogs st) (wTests st) m.logs_avg m.tests_avg := by
    rw [hmeq]; rfl
  refine ⟨?_, ?_, ?_, ?_⟩
  · intro l t hl ht; rw [havg, hl, ht]; rfl
  · intro l hl ht; rw [havg, hl, ht]; rfl
  · intro t hl ht; rw [havg, hl, ht]; rfl
  · intro hl ht; rw [havg, hl, ht]; rfl

/-- Witness for C1 at the spec's §8 scenario: log mean 80, test mean 60,
default weights 0.7/0.3, blended score 74. -/
theorem compute_metrics_avg_score_blend_witness : sampleMetrics.avg_score = 74 := by
  have h := compute_metrics_avg_score_blend sampleSettings 0 [sampleSubject] sampleLogs
    sampleTests 0 sampleSubject sampleMetrics rfl rfl
  have hl : sampleMetrics.logs_avg = some 80 := by
    simp [sampleMetrics, metricsRowFor, meanOpt, logScores, logsFor, sampleLogs, sampleSubject]
  have ht : sampleMetrics.tests_avg = some 60 := by
    simp [sampleMetrics, metricsRowFor, meanOpt, testScores, testsFor, sampleTests, sampleSubject]
  rw [h.1 80 60 hl ht]
  norm_num [wLogs, wTests, sampleSettings]

/-- C2: `weighted_readiness` returns `Σ priority·(avg_score/100) / Σ priority`,
and exactly 0 on an empty table or when the priorities sum to zero. -/
theorem weighted_readiness_spec (rows : List MetricsRow) :
    (rows = [] → weighted_readiness rows = 0)
    ∧ ((rows.map (fun r => r.priority)).sum = 0 → weighted_readiness rows = 0)
    ∧ (rows ≠ [] → (rows.map (fun r => r.priority)).sum ≠ 0 →
        weighted_readiness rows
          = (rows.map (fun r => r.priority * (r.avg_score / 100))).sum
            / (rows.map (fun r => r.priority)).sum) := by
  refine ⟨?_, ?_, ?_⟩
  · intro h; subst h; rfl
  · intro h; simp [weighted_readiness, h]
  · intro h1 h2
    cases rows with
    | nil => exact absurd rfl h1
    | cons a as =>
      simp [weighted_readiness, h2]
      intro h0
      exact absurd h0 h2

/-- Witness for C2 at a one-row table: priority 4, avg score 50, readiness
4·(50/100)/4 = 1/2, with both divide-by-zero guards inapplicable. -/
theorem weighted_readiness_spec_witness :
    sampleMetricsTable ≠ []
    ∧ (sampleMetricsTable.map (fun r => r.priority)).sum ≠ 0
    ∧ weighted_readiness sampleMetricsTable
        = (sampleMetricsTable.map (fun r => r.priority * (r.avg_score / 100))).sum
          / (sampleMetricsTable.map (fun r => r.priority)).sum := by
  have hne : sampleMetricsTable ≠ [] := by simp [sampleMetricsTable]
  have hden : (sampleMetricsTable.map (fun r => r.priority)).sum ≠ 0 := by
    norm_num [sampleMetricsTable]
  exact ⟨hne, hden, (weighted_readiness_spec sampleMetricsTable).2.2 hne hden⟩

/-- C5: every produced `days_left` is `max 0` of the whole-day difference
from today to the subject's own exam date when present, else to the
configured default exam date; in particular it is never negative. -/
theorem compute_metrics_days_left_spec (st : Settings) (today : Int)
    (subjects : List SubjectRow) (logs : List LogRow) (tests : List TestRow)
    (i : Nat) (s : SubjectRow) (m : MetricsRow)
    (hs : subjects[i]? = some s)
    (hm : (compute_metrics st today subjects logs tests)[i]? = some m) :
    m.days_left = max 0 (days_between today (s.exam_date.getD (effectiveDefaultExam st)))
    ∧ 0 ≤ m.days_left := by
  have hmeq := compute_metrics_getElem st today subjects logs tests i s m hs hm
  constructor
  · rw [hmeq]; rfl
  · rw [hmeq]
    show 0 ≤ max 0 (days_between today (s.exam_date.getD (effectiveDefaultExam st)))
    exact le_max_left 0 _

/-- Witness for C5: the sample subject's exam is 10 days after day 0, so
`days_left = 10 ≥ 0`. -/
theorem compute_metrics_days_left_witness :
    sampleMetrics.days_left
      = max 0 (days_between 0 (sampleSubject.exam_date.getD (effectiveDefaultExam sampleSettings)))
    ∧ 0 ≤ sampleMetrics.days_left :=
  compute_metrics_days_left_spec sampleSettings 0 [sampleSubject] sampleLogs sampleTests 0
    sampleSubject sampleMetrics rfl rfl

/-- Discarding log rows whose subject id belongs to no subject of the table
does not change the group of any subject that is in the table. -/
theorem logsFor_filter_any (subjects : List SubjectRow) (s : SubjectRow)
    (hs : s ∈ subjects) (logs : List LogRow) :
    logsFor s.id (logs.filter (fun l => subjects.any (fun x => x.id == l.subject_id)))
      = logsFor s.id logs := by
  unfold logsFor
  rw [List.filter_filter]
  apply List.filter_congr
  intro l _
  cases h : (l.subject_id == s.id) with
  | false => simp [h]
  | true =>
    simp only [h, Bool.true_and]
    rw [List.any_eq_true]
    refine ⟨s, hs, ?_⟩
    rw [beq_iff_eq] at h ⊢
    exact h.symm

/-- Test-row version of `logsFor_filter_any`. -/
theorem testsFor_filter_any (subjects : List SubjectRow) (s : SubjectRow)
    (hs : s ∈ subjects) (tests : List TestRow) :
    testsFor s.id (tests.filter (fun t => subjects.any (fun x => x.id == t.subject_id)))
      = testsFor s.id tests := by
  unfold testsFor
  rw [List.filter_filter]
  apply List.filter_congr
  intro t _
  cases h : (t.subject_id == s.id) with
  | false => simp [h]
  | true =>
    simp only [h, Bool.true_and]
    rw [List.any_eq_true]
    refine ⟨s, hs, ?_⟩
    rw [beq_iff_eq] at h ⊢
    exact h.symm

/-- C4: the left join produces exactly one output row per input subject row
(none dropped, none duplicated); a subject matching no log and no test
rows gets `hours = 0`, `avg_score = 0` and `priority_gap = priority`; and
log/test rows whose `subject_id` matches no subject contribute nothing —
dropping them changes no output row. -/
theorem compute_metrics_left_join_spec (st : Settings) (today : Int)
    (subjects : List SubjectRow) (logs : List LogRow) (tests : List TestRow) :
    (compute_metrics st today subjects logs tests).length = subjects.length
    ∧ (∀ (i : Nat) (s : SubjectRow) (m : MetricsRow), subjects[i]? = some s →
        (compute_metrics st today subjects logs tests)[i]? = some m →
        m.id = s.id
        ∧ (logsFor s.id logs = [] → testsFor s.id tests = [] →
            m.hours = 0 ∧ m.avg_score = 0 ∧ m.priority_gap = m.priority))
    ∧ compute_metrics st today subjects
        (logs.filter (fun l => subjects.any (fun x => x.id == l.subject_id)))
        (tests.filter (fun t => subjects.any (fun x => x.id == t.subject_id)))
        = compute_metrics st today subjects logs tests := by
  refine ⟨?_, ?_, ?_⟩
  · unfold compute_metrics
    exact List.length_map _ _
  · intro i s m hs hm
    have hmeq := compute_metrics_getElem st today subjects logs tests i s m hs hm
    refine ⟨by rw [hmeq]; rfl, ?_⟩
    intro hL hT
    rw [hmeq]
    unfold metricsRowFor
    simp only [hL, hT]
    norm_num [weighted_avg, meanOpt, logScores, testScores]
  · unfold compute_metrics
    apply List.map_eq_map_iff.mpr
    intro s hs
    unfold metricsRowFor
    rw [logsFor_filter_any subjects s hs logs, testsFor_filter_any subjects s hs tests]

/-- Witness for C4: one subject with only an orphan log in scope still
yields exactly one zero-filled row with `priority_gap = priority`. -/
theorem compute_metrics_left_join_witness :
    (compute_metrics sampleSettings 0 [lonelySubject] orphanLogs []).length = 1
    ∧ lonelyMetrics.hours = 0 ∧ lonelyMetrics.avg_score = 0
    ∧ lonelyMetrics.priority_gap = lonelyMetrics.priority := by
  have h := compute_metrics_left_join_spec sampleSettings 0 [lonelySubject] orphanLogs []
  exact ⟨h.1, (h.2.1 0 lonelySubject lonelyMetrics rfl rfl).2 rfl rfl⟩

/-- Counterexample to C3 as stated: two calls with identical `subjects`,
`logs`, `tests` and an identical settings record give different outputs
when made on different days — the source also reads `date.today()`, so
the result is not a function of the arguments plus the configuration
alone (`days_left` is 10 on day 0 but 5 on day 5). -/
theorem compute_metrics_today_dependence :
    ((compute_metrics sampleSettings 0 [sampleSubject] [] [])[0]?).map (fun m => m.days_left)
      = some 10
    ∧ ((compute_metrics sampleSettings 5 [sampleSubject] [] [])[0]?).map (fun m => m.days_left)
      = some 5
    ∧ compute_metrics sampleSettings 0 [sampleSubject] [] []
        ≠ compute_metrics sampleSettings 5 [sampleSubject] [] [] := by
  have h0 : ((compute_metrics sampleSettings 0 [sampleSubject] [] [])[0]?).map
      (fun m => m.days_left) = some 10 := by decide
  have h5 : ((compute_metrics sampleSettings 5 [sampleSubject] [] [])[0]?).map
      (fun m => m.days_left) = some 5 := by decide
  refine ⟨h0, h5, ?_⟩
  intro h
  rw [h, h5] at h0
  exact absurd h0 (by decide)

/-- C3 (amended): `compute_metrics` is deterministic in its collections,
the configuration and the current date; it depends on the configuration
only through `logs_weight`, `tests_weight` and `default_exam_date`, and
it touches no other ambient state. -/
theorem compute_metrics_deterministic (st1 st2 : Settings) (today : Int)
    (subjects : List SubjectRow) (logs : List LogRow) (tests : List TestRow)
    (hw : st1.logs_weight = st2.logs_weight)
    (ht : st1.tests_weight = st2.tests_weight)
    (hd : st1.default_exam_date = st2.default_exam_date) :
    compute_metrics st1 today subjects logs tests
      = compute_metrics st2 today subjects logs tests := by
  simp only [compute_metrics, wLogs, wTests, effectiveDefaultExam, hw, ht, hd]

/-- Witness for the amended C3: two settings records differing in
`momentum_days` and `semester` produce identical metrics. -/
theorem compute_metrics_deterministic_witness :
    settingsA.logs_weight = settingsB.logs_weight
    ∧ compute_metrics settingsA 0 [sampleSubject] sampleLogs sampleTests
        = compute_metrics settingsB 0 [sampleSubject] sampleLogs sampleTests :=
  ⟨rfl, compute_metrics_deterministic settingsA settingsB 0 [sampleSubject] sampleLogs
    sampleTests rfl rfl rfl⟩

/-- Counterexample to C8 as stated: `weighted_readiness` has no range
guard of its own, so a metrics table carrying an out-of-range
`avg_score = 200` (priority 1) yields readiness 2 ∉ [0,1]. -/
theorem weighted_readiness_range_cex :
    weighted_readiness [rogueMetricsRow] = 2
    ∧ ¬(0 ≤ weighted_readiness [rogueMetricsRow]
        ∧ weighted_readiness [rogueMetricsRow] ≤ 1) := by
  have h2 : weighted_readiness [rogueMetricsRow] = 2 := by
    norm_num [weighted_readiness, rogueMetricsRow]
  refine ⟨h2, ?_⟩
  rw [h2]
  norm_num

/-- C8 (amended): `weighted_readiness` lies in [0,1] on every metrics table
whose rows have non-negative priority and `avg_score` within [0,100] —
as produced from in-range inputs; without those bounds the value can
leave [0,1]. -/
theorem weighted_readiness_range (rows : List MetricsRow)
    (h : ∀ r ∈ rows, 0 ≤ r.priority ∧ 0 ≤ r.avg_score ∧ r.avg_score ≤ 100) :
    0 ≤ weighted_readiness rows ∧ weighted_readiness rows ≤ 1 := by
  unfold weighted_readiness
  cases hrows : rows.isEmpty with
  | true => norm_num
  | false =>
    simp only [Bool.false_eq_true, if_false]
    by_cases h0 : (rows.map (fun r => r.priority)).sum = 0
    · simp only [h0, if_pos]
      norm_num
    · rw [if_neg h0]
      have hnum : 0 ≤ (rows.map (fun r => r.priority * (r.avg_score / 100))).sum := by
        apply List.sum_nonneg
        intro x hx
        obtain ⟨r, hr, rfl⟩ := List.mem_map.mp hx
        exact mul_nonneg (h r hr).1 (div_nonneg (h r hr).2.1 (by norm_num))
      have hden : 0 ≤ (rows.map (fun r => r.priority)).sum := by
        apply List.sum_nonneg
        intro x hx
        obtain ⟨r, hr, rfl⟩ := List.mem_map.mp hx
        exact (h r hr).1
      have hdenpos : 0 < (rows.map (fun r => r.priority)).sum :=
        lt_of_le_of_ne hden (Ne.symm h0)
      have hle : (rows.map (fun r => r.priority * (r.avg_score / 100))).sum
          ≤ (rows.map (fun r => r.priority)).sum := by
        apply List.sum_le_sum
        intro r hr
        calc r.priority * (r.avg_score / 100) ≤ r.priority * 1 := by
              apply mul_le_mul_of_nonneg_left _ (h r hr).1
              rw [div_le_one (by norm_num : (0 : Rat) < 100)]
              exact (h r hr).2.2
          _ = r.priority := mul_one _
      exact ⟨div_nonneg hnum hden, (div_le_one hdenpos).mpr hle⟩

/-- Witness for the amended C8: the in-range one-row table stays in [0,1]. -/
theorem weighted_readiness_range_witness :
    0 ≤ weighted_readiness sampleMetricsTable ∧ weighted_readiness sampleMetricsTable ≤ 1 :=
  weighted_readiness_range sampleMetricsTable (by
    intro r hr
    rw [sampleMetricsTable, List.mem_singleton] at hr
    subst hr
    norm_num)

/-- C6: score repair is asymmetric between the two entry kinds. A test
score cell is clamped into [0,100]; a log score cell outside [0,100] is
nulled (and an in-range one kept), never clamped. -/
theorem normalize_score_asymmetry (fresh : Nat → String) (uid : Option String)
    (logsDf : List RawLogRow) (testsDf : List RawTestRow) (i : Nat) :
    (∀ (r : RawTestRow) (m : NormTestRow) (s : Rat),
        testsDf[i]? = some r →
        (normalize_tests_df fresh testsDf uid)[i]? = some m →
        r.score = some s → m.score = some (max 0 (min 100 s)))
    ∧ (∀ (r : RawLogRow) (m : NormLogRow) (s : Rat),
        logsDf[i]? = some r →
        (normalize_logs_df fresh logsDf uid)[i]? = some m →
        r.score = some s →
        ((s < 0 ∨ 100 < s) → m.score = none)
        ∧ (0 ≤ s → s ≤ 100 → m.score = some s)) := by
  constructor
  · intro r m s hr hm hs
    obtain ⟨theId, r2, _, hr2, hmeq⟩ := zipWith_getElem?_inv _ _ _ _ _ hm
    rw [hr] at hr2
    obtain rfl := Option.some.inj hr2
    rw [hmeq]
    simp only [normTestFields]
    rw [hs, Option.map_some']
    rfl
  · intro r m s hr hm hs
    obtain ⟨theId, r2, _, hr2, hmeq⟩ := zipWith_getElem?_inv _ _ _ _ _ hm
    rw [hr] at hr2
    obtain rfl := Option.some.inj hr2
    rw [hmeq]
    simp only [normLogFields]
    rw [hs]
    constructor
    · intro hout
      exact if_pos hout
    · intro h0 h100
      exact if_neg (by push_neg; exact ⟨h0, h100⟩)

/-- Witness for C6 at the spec's §8 asymmetry scenario: a test scored 150
comes out clamped to 100, a log scored 150 comes out null. -/
theorem normalize_score_asymmetry_witness :
    (normTestFields none "fresh-id" hotTest).score = some 100
    ∧ (normLogFields none "fresh-id" hotLog).score = none := by
  have h := normalize_score_asymmetry (fun _ => "fresh-id") none [hotLog] [hotTest] 0
  constructor
  · have ht := h.1 hotTest (normTestFields none "fresh-id" hotTest) 150 rfl rfl rfl
    rw [ht]
    norm_num
  · exact (h.2 hotLog (normLogFields none "fresh-id" hotLog) 150 rfl rfl rfl).1
      (Or.inr (by norm_num))

/-- `astype(int)` of the constant 1 used as the credits default. -/
theorem ratTrunc_one : ratTrunc 1 = 1 := by norm_num [ratTrunc]

/-- Truncation keeps the credits lower bound when the cell is at least 1. -/
theorem one_le_ratTrunc (q : Rat) (hq : 1 ≤ q) : 1 ≤ ratTrunc q := by
  rw [ratTrunc, if_neg (not_lt.mpr (le_trans zero_le_one hq))]
  exact Int.le_floor.mpr (by exact_mod_cast hq)

/-- The clamp into [0,10] used for confidence lands in [0,10]. -/
theorem clipZ_conf_bounds (x : Int) : 0 ≤ clipZ 0 10 x ∧ clipZ 0 10 x ≤ 10 :=
  ⟨le_max_left _ _, max_le (by norm_num) (min_le_left _ _)⟩

/-- C7 (amended): subject repair clamps `confidence` into [0,10] and
defaults a missing `credits` cell to 1, and keeps `credits ≥ 1` whenever
the incoming cell is at least 1 — but a numeric `credits` cell below 1 is
passed through unclamped, so the `credits ≥ 1` invariant is not enforced
(see the counterexample). Holds for both `normalize_subjects_df` and
`sanitize_subjects_for_editor`. -/
theorem subjects_invariant_amended (fresh : Nat → String) (df : List RawSubjectRow)
    (default_exam : Option Int) (uid : Option String) (st : Settings) (i : Nat)
    (r : RawSubjectRow) (hr : df[i]? = some r) :
    (∀ m : NormSubjectRow,
        (normalize_subjects_df fresh df default_exam uid)[i]? = some m →
        (0 ≤ m.confidence ∧ m.confidence ≤ 10)
        ∧ (r.credits = none → m.credits = 1)
        ∧ (∀ q : Rat, r.credits = some q → 1 ≤ q → 1 ≤ m.credits))
    ∧ (∀ e : EditorSubjectRow,
        (sanitize_subjects_for_editor st df)[i]? = some e →
        (0 ≤ e.confidence ∧ e.confidence ≤ 10)
        ∧ (r.credits = none → e.credits = 1)
        ∧ (∀ q : Rat, r.credits = some q → 1 ≤ q → 1 ≤ e.credits)) := by
  constructor
  · intro m hm
    obtain ⟨theId, r2, _, hr2, hmeq⟩ := zipWith_getElem?_inv _ _ _ _ _ hm
    rw [hr] at hr2
    obtain rfl := Option.some.inj hr2
    rw [hmeq]
    simp only [normSubjectFields]
    refine ⟨clipZ_conf_bounds _, ?_, ?_⟩
    · intro hc
      rw [hc, Option.getD_none]
      exact ratTrunc_one
    · intro q hc hq
      rw [hc, Option.getD_some]
      exact one_le_ratTrunc q hq
  · intro e he
    rw [sanitize_subjects_for_editor, List.getElem?_map, hr, Option.map_some'] at he
    obtain rfl := (Option.some.inj he).symm
    refine ⟨clipZ_conf_bounds _, ?_, ?_⟩
    · intro hc
      show ratTrunc (r.credits.getD 1) = 1
      rw [hc, Option.getD_none]
      exact ratTrunc_one
    · intro q hc hq
      show 1 ≤ ratTrunc (r.credits.getD 1)
      rw [hc, Option.getD_some]
      exact one_le_ratTrunc q hq

/-- Counterexample to C7 as stated: an in-schema numeric credits cell of 0
survives `normalize_subjects_df` as `credits = 0 < 1` — the source
applies `fillna(1).astype(int)` with no clamp on credits. -/
theorem subjects_invariant_cex :
    ¬(∀ m ∈ normalize_subjects_df (fun _ => "fresh-id") [badCreditsRow] none none,
        1 ≤ m.credits) := by
  intro h
  have hm : (normSubjectFields none none "fresh-id" badCreditsRow)
      ∈ normalize_subjects_df (fun _ => "fresh-id") [badCreditsRow] none none := by
    rw [show normalize_subjects_df (fun _ => "fresh-id") [badCreditsRow] none none
        = [normSubjectFields none none "fresh-id" badCreditsRow] from rfl]
    exact List.mem_singleton_self _
  have hle := h _ hm
  norm_num [normSubjectFields, badCreditsRow, ratTrunc] at hle

/-- Witness for the amended C7: a fully-missing row gets confidence 5
(clamped range [0,10] holds) and credits defaulted to 1. -/
theorem subjects_invariant_witness :
    (0 ≤ (normSubjectFields none none "fresh-id" ({} : RawSubjectRow)).confidence
      ∧ (normSubjectFields none none "fresh-id" ({} : RawSubjectRow)).confidence ≤ 10)
    ∧ (normSubjectFields none none "fresh-id" ({} : RawSubjectRow)).credits = 1 := by
  have h := subjects_invariant_amended (fun _ => "fresh-id") [({} : RawSubjectRow)]
    none none sampleSettings 0 ({} : RawSubjectRow) rfl
  have h2 := h.1 (normSubjectFields none none "fresh-id" ({} : RawSubjectRow)) rfl
  exact ⟨h2.1, h2.2.1 rfl⟩

/-- C10: after any of the three normalizers every output row carries a
non-blank id; a missing, empty or whitespace-only id cell is replaced by
a fresh identifier (given a non-blank uuid supply), and an already
non-blank id is kept unchanged. -/
theorem normalize_ids_nonblank (fresh : Nat → String)
    (hfresh : ∀ n, pyStrip (fresh n) ≠ "")
    (subjectsDf : List RawSubjectRow) (logsDf : List RawLogRow) (testsDf : List RawTestRow)
    (default_exam : Option Int) (uid : Option String) (i : Nat) :
    (∀ m : NormSubjectRow,
        (normalize_subjects_df fresh subjectsDf default_exam uid)[i]? = some m →
        pyStrip m.id ≠ ""
        ∧ ∀ (r : RawSubjectRow) (s : String), subjectsDf[i]? = some r → r.id = some s →
            pyStrip s ≠ "" → m.id = s)
    ∧ (∀ m : NormLogRow,
        (normalize_logs_df fresh logsDf uid)[i]? = some m →
        pyStrip m.id ≠ ""
        ∧ ∀ (r : RawLogRow) (s : String), logsDf[i]? = some r → r.id = some s →
            pyStrip s ≠ "" → m.id = s)
    ∧ (∀ m : NormTestRow,
        (normalize_tests_df fresh testsDf uid)[i]? = some m →
        pyStrip m.id ≠ ""
        ∧ ∀ (r : RawTestRow) (s : String), testsDf[i]? = some r → r.id = some s →
            pyStrip s ≠ "" → m.id = s) := by
  refine ⟨?_, ?_, ?_⟩
  · intro m hm
    obtain ⟨theId, r2, hid, _, hmeq⟩ := zipWith_getElem?_inv _ _ _ _ _ hm
    have hspec := assignIds_spec fresh hfresh (subjectsDf.map (fun r => r.id)) 0 i theId hid
    have hmid : m.id = theId := by rw [hmeq]; rfl
    refine ⟨by rw [hmid]; exact hspec.1, ?_⟩
    intro r s hr hs hsnb
    have hcell : (subjectsDf.map (fun r => r.id))[i]? = some (some s) := by
      rw [List.getElem?_map, hr, Option.map_some', hs]
    rw [hmid]
    exact hspec.2 s hcell hsnb
  · intro m hm
    obtain ⟨theId, r2, hid, _, hmeq⟩ := zipWith_getElem?_inv _ _ _ _ _ hm
    have hspec := assignIds_spec fresh hfresh (logsDf.map (fun r => r.id)) 0 i theId hid
    have hmid : m.id = theId := by rw [hmeq]; rfl
    refine ⟨by rw [hmid]; exact hspec.1, ?_⟩
    intro r s hr hs hsnb
    have hcell : (logsDf.map (fun r => r.id))[i]? = some (some s) := by
      rw [List.getElem?_map, hr, Option.map_some', hs]
    rw [hmid]
    exact hspec.2 s hcell hsnb
  · intro m hm
    obtain ⟨theId, r2, hid, _, hmeq⟩ := zipWith_getElem?_inv _ _ _ _ _ hm
    have hspec := assignIds_spec fresh hfresh (testsDf.map (fun r => r.id)) 0 i theId hid
    have hmid : m.id = theId := by rw [hmeq]; rfl
    refine ⟨by rw [hmid]; exact hspec.1, ?_⟩
    intro r s hr hs hsnb
    have hcell : (testsDf.map (fun r => r.id))[i]? = some (some s) := by
      rw [List.getElem?_map, hr, Option.map_some', hs]
    rw [hmid]
    exact hspec.2 s hcell hsnb

/-- Witness for C10: a subject row with a missing id gets the fresh
non-blank id, a log row whose id is `"keep"` keeps it. -/
theorem normalize_ids_nonblank_witness :
    pyStrip (normSubjectFields none none "fresh-id" ({} : RawSubjectRow)).id ≠ ""
    ∧ (normLogFields none "keep" { id := some "keep" }).id = "keep" := by
  have h := normalize_ids_nonblank (fun _ => "fresh-id") (by intro n; show pyStrip "fresh-id" ≠ ""; decide)
    [({} : RawSubjectRow)] [{ id := some "keep" }] [] none none 0
  constructor
  · exact (h.1 (normSubjectFields none none "fresh-id" ({} : RawSubjectRow)) rfl).1
  · exact (h.2.1 (normLogFields none "keep" { id := some "keep" }) rfl).2
      { id := some "keep" } "keep" rfl rfl (by decide)

/-- Rows surviving the keep-last deduplication were already in the input. -/
theorem mem_dropDuplicatesKeepLast {r : URow} :
    ∀ {l : List URow}, r ∈ dropDuplicatesKeepLast l → r ∈ l
  | [] => by simp [dropDuplicatesKeepLast]
  | a :: rest => by
    unfold dropDuplicatesKeepLast
    split
    · intro h
      exact List.mem_cons_of_mem a (mem_dropDuplicatesKeepLast h)
    · intro h
      rcases List.mem_cons.mp h with h1 | h2
      · exact h1 ▸ List.mem_cons_self a rest
      · exact List.mem_cons_of_mem a (mem_dropDuplicatesKeepLast h2)

/-- Core frame for the shared non-`none` branch of both merge helpers: the
rows not owned by `u` in the result are exactly, in order, the rows not
owned by `u` in `existing`. -/
theorem frame_core (existing incoming : List URow) (u : String) :
    (existing.filter (fun r => r.user_id != u)
      ++ dropDuplicatesKeepLast
          (existing.filter (fun r => r.user_id == u)
            ++ incoming.map (fun r => { r with user_id := u }))).filter
        (fun r => r.user_id != u)
      = existing.filter (fun r => r.user_id != u) := by
  rw [List.filter_append]
  have h1 : (existing.filter (fun r => r.user_id != u)).filter (fun r => r.user_id != u)
      = existing.filter (fun r => r.user_id != u) := by
    rw [List.filter_filter]
    apply List.filter_congr
    intro a _
    exact Bool.and_self _
  have h2 : (dropDuplicatesKeepLast
      (existing.filter (fun r => r.user_id == u)
        ++ incoming.map (fun r => { r with user_id := u }))).filter
      (fun r => r.user_id != u) = [] := by
    rw [List.filter_eq_nil_iff]
    intro r hr
    rcases List.mem_append.mp (mem_dropDuplicatesKeepLast hr) with hc | hi
    · have hcu := (List.mem_filter.mp hc).2
      simp [bne, hcu]
    · obtain ⟨r0, _, rfl⟩ := List.mem_map.mp hi
      simp [bne]
  rw [h1, h2, List.append_nil]

/-- C9: for a non-null user id, both merge helpers keep every existing row
of another user present and unchanged (in content, multiplicity and
order); only rows owned by that user are replaced, deduplicated by id,
or appended. -/
theorem merge_helpers_frame (existing incoming : List URow) (u : String) :
    (merge_replace_current_user existing incoming (some u)).filter
        (fun r => r.user_id != u)
      = existing.filter (fun r => r.user_id != u)
    ∧ (append_current_user existing incoming (some u)).filter
        (fun r => r.user_id != u)
      = existing.filter (fun r => r.user_id != u) :=
  ⟨frame_core existing incoming u, frame_core existing incoming u⟩

end GpaCommand
